import Mathlib

set_option maxHeartbeats 2000000
set_option maxRecDepth 4096

/-!
Verification of the bilingual voice-assistant conversation engine of
shop-sahai-101 (src/src/components/VoiceAssistant.tsx).  The React
component state that drives the borrow and purchase dialogue flows is
embedded as a pure state type, and each handler (quick commands, per-step
reply handling, the Save button click with its awaited result, and the
add-borrow-result effect listener) as a pure function from state and
input to state plus the list of dispatched commit-request events.
-/

namespace ShopSahai

/-- Borrow flow steps (BorrowConversationStep, VoiceAssistant.tsx line 13). -/
inductive BorrowStep
  | idle
  | askName
  | askAmount
  | askPaid
  | confirm
  | done
deriving DecidableEq

/-- Purchase flow steps (PurchaseConversationStep, VoiceAssistant.tsx line 21). -/
inductive PurchaseStep
  | idle
  | askSupplier
  | askAmount
  | askPaid
  | confirm
  | done
deriving DecidableEq

/-- BorrowConversationState (VoiceAssistant.tsx lines 14-19). -/
structure BorrowConversationState where
  step : BorrowStep
  name : String
  amount : String
  paid : String
deriving DecidableEq

/-- PurchaseConversationState (VoiceAssistant.tsx lines 22-27). -/
structure PurchaseConversationState where
  step : PurchaseStep
  supplier : String
  amount : String
  paid : String
deriving DecidableEq

/-- The component state relevant to the conversation engines: the two flow
states, the editable confirmation buffers, the response (prompt) text and the
two busy flags that feed the Save button disabled guards. -/
structure VAState where
  borrowState : BorrowConversationState
  purchaseState : PurchaseConversationState
  borrowConfirmEdit : Option BorrowConversationState
  purchaseConfirmEdit : Option PurchaseConversationState
  response : String
  isProcessing : Bool
  isSaving : Bool
deriving DecidableEq

/-- Commit-request events dispatched on window (add-borrow at lines 278 and 692,
add-purchase at lines 418 and 807). -/
inductive Event
  | addBorrow (name totalGiven amountPaid : String)
  | addPurchase (supplierName totalAmount amountPaid : String)
deriving DecidableEq

/-- Payload of an add-borrow-result / add-purchase-result notification. -/
structure ResultDetail where
  success : Bool
  error : Option String
deriving DecidableEq

/-- The word-number parser imported from the voice command service
(VoiceAssistant.tsx line 11); kept abstract in the handler definitions since
its implementation file is not among the provided sources. -/
abbrev NumParser := String → Option Int

/-- ASCII lowercasing on one character, as the JS i regex flag and
toLowerCase act on the vocabulary in play (Malayalam characters are
unaffected). -/
def asciiLowerChar (c : Char) : Char :=
  if 65 ≤ c.toNat ∧ c.toNat ≤ 90 then Char.ofNat (c.toNat + 32) else c

/-- ASCII lowercasing on a string. -/
def lowerString (s : String) : String :=
  String.mk (s.toList.map asciiLowerChar)

/-- Whitespace characters stripped by JS String.prototype.trim (the ones
relevant to the texts in play). -/
def isWsChar (c : Char) : Bool :=
  c = ' ' || c = '\t' || c = '\n' || c = '\r'

/-- JS String.prototype.trim: strip surrounding whitespace. -/
def jsTrim (s : String) : String :=
  String.mk (((s.toList.dropWhile isWsChar).reverse.dropWhile isWsChar).reverse)

/-- Does pat occur as a contiguous run inside s?  Used to model a JS regular
expression test for one literal alternative. -/
def containsSeq : List Char → List Char → Bool
  | [], pat => pat.isEmpty
  | c :: rest, pat => pat.isPrefixOf (c :: rest) || containsSeq rest pat

/-- JS regex alternation test with the i flag: some alternative (given in
lowercase) occurs in the lowercased text. -/
def testAny (alts : List String) (t : String) : Bool :=
  alts.any (fun a => containsSeq (lowerString t).toList a.toList)

/-- Affirmative vocabulary at the confirm step (lines 258 and 399). -/
def affirmativeWords : List String :=
  ["yes", "save", "okay", "confirm", "ശരി", "സേവ്", "ഉണ്ട്"]

/-- Negative / change vocabulary at the confirm step (lines 287 and 427). -/
def negativeWords : List String :=
  ["no", "change", "back", "വേണ്ട", "മാറ്റം", "തിരിച്ച്"]

/-- Clear / reset quick-command vocabulary (lines 301 and 439). -/
def clearWords : List String :=
  ["clear", "reset", "വ്യക്തം", "റീസെറ്റ്"]

/-- Cancel quick-command vocabulary (lines 308 and 446). -/
def cancelWords : List String :=
  ["cancel", "exit", "stop", "വേണ്ട", "പുറത്ത്"]

/-- Purchase flow start vocabulary (line 472). -/
def purchaseStartWords : List String :=
  ["purchase", "buy", "വാങ്ങൽ", "വാങ്ങി"]

/-- Borrow flow start vocabulary (line 477). -/
def borrowStartWords : List String :=
  ["borrow", "കടം"]

/-- Supplier values the purchase Save guard rejects (lines 765 and 777). -/
def supplierInvalidWords : List String :=
  ["unknown", "blank", "supplier", "person", "അജ്ഞാത"]

/-- First maximal run of decimal digits in the text: the JS match against
the digit-run regex used as the fallback amount extractor. -/
def firstDigitRun : List Char → Option (List Char)
  | [] => none
  | c :: rest =>
    if c.isDigit then some (c :: rest.takeWhile Char.isDigit)
    else firstDigitRun rest

/-- Value of a digit run, as JS parseInt computes it on a pure digit string. -/
def digitsToNat (cs : List Char) : Nat :=
  cs.foldl (fun n c => n * 10 + (c.toNat - Char.toNat '0')) 0

/-- JS x or-else y on an optional string: a missing or empty string falls
through to the default (the likes of data.paid fall back to the string 0). -/
def jsOr (o : Option String) (dflt : String) : String :=
  match o with
  | some s => if s = "" then dflt else s
  | none => dflt

/-- Prompt emitted when the amount reply cannot be parsed (lines 206-209
and 347-350). -/
def amountNotUnderstoodResponse (isEnglish : Bool) (t : String) : String :=
  if isEnglish then
    s!"I couldn\x27t understand the amount \"{t}\". Please say a clear number like \"1000\" or \"one thousand\"."
  else
    s!"തുക \"{t}\" മനസ്സിലായില്ല. ദയവായി \"1000\" അല്ലെങ്കിൽ \"ആയിരം\" പോലെ വ്യക്തമായി പറയുക."

/-- Missing-information prompt of the borrow confirm guard (lines 265-268). -/
def missingInfoBorrowMsg (isEnglish : Bool) : String :=
  if isEnglish then
    "Missing required information. Please provide the person\x27s name and amount."
  else
    "ആവശ്യമായ വിവരങ്ങൾ കാണുന്നില്ല. ദയവായി വ്യക്തിയുടെ പേരും തുകയും നൽകുക."

/-- Missing-information prompt of the purchase confirm guard (lines 405-408). -/
def missingInfoPurchaseMsg (isEnglish : Bool) : String :=
  if isEnglish then
    "Missing required information. Please provide the supplier name and amount."
  else
    "ആവശ്യമായ വിവരങ്ങൾ കാണുന്നില്ല. ദയവായി സപ്ലയർ പേരും തുകയും നൽകുക."

/-- Success text of the borrow voice path and the result listener (285, 546). -/
def recordAddedMsg (isEnglish : Bool) : String :=
  if isEnglish then "Record added successfully!"
  else "റെക്കോർഡ് വിജയകരമായി ചേർത്തു!"

/-- Success text of the purchase paths (lines 425 and 830-832). -/
def purchaseAddedMsg (isEnglish : Bool) : String :=
  if isEnglish then "Purchase record added successfully!"
  else "വാങ്ങൽ രേഖ വിജയകരമായി ചേർത്തു!"

/-- Prompt after a negative reply in the borrow flow (line 290). -/
def borrowChangeMsg (isEnglish : Bool) : String :=
  if isEnglish then "Okay, let’s change the amount. How much did you borrow?"
  else "ശരി, എത്ര രൂപ കടം എടുത്തു?"

/-- Prompt after a negative reply in the purchase flow (line 430). -/
def purchaseChangeMsg (isEnglish : Bool) : String :=
  if isEnglish then "Okay, let’s change the amount. How much did you purchase?"
  else "ശരി, എത്ര രൂപയ്ക്ക് വാങ്ങി?"

/-- Re-emitted yes/no instruction at the confirm step (lines 293 and 433). -/
def yesNoMsg (isEnglish : Bool) : String :=
  if isEnglish then "Please say Yes to save, or No to change."
  else "സേവ് ചെയ്യാൻ ഉണ്ട് എന്ന് പറയുക, അല്ലെങ്കിൽ മാറ്റാൻ വേണ്ട എന്ന് പറയുക."

/-- Cancellation announcement of the cancel quick command (lines 310 and 448). -/
def cancelledMsg (isEnglish : Bool) : String :=
  if isEnglish then "Cancelled." else "റദ്ദാക്കി."

/-- Borrow reset quick-command prompt (line 303). -/
def borrowFormClearedMsg (isEnglish : Bool) : String :=
  if isEnglish then "Form cleared. Let’s start again. Who did you borrow from?"
  else "ഫോം ക്ലിയർ ചെയ്തു. ആരിൽ നിന്നാണ് കടം എടുത്തത്?"

/-- Purchase reset quick-command prompt (line 441). -/
def purchaseFormClearedMsg (isEnglish : Bool) : String :=
  if isEnglish then "Form cleared. Let’s start again. Who is the supplier?"
  else "ഫോം ക്ലിയർ ചെയ്തു. സപ്ലയർ ആരാണ്?"

/-- Fixed failure text of the borrow Save click catch block (lines 727-729). -/
def borrowSaveFailedMsg (isEnglish : Bool) : String :=
  if isEnglish then "Failed to save borrow record. Please try again."
  else "കടം രേഖ സേവ് ചെയ്യുന്നതിൽ പിഴവ് സംഭവിച്ചു. ദയവായി വീണ്ടും ശ്രമിക്കുക."

/-- Fixed failure text of the purchase Save click catch block (lines 842-844). -/
def purchaseSaveFailedMsg (isEnglish : Bool) : String :=
  if isEnglish then "Failed to save purchase. Please try again."
  else "വാങ്ങൽ സേവ് ചെയ്യുന്നതിൽ പിഴവ് സംഭവിച്ചു. ദയവായി വീണ്ടും ശ്രമിക്കുക."

/-- Success text of the borrow Save click (lines 715-717). -/
def borrowSaveSuccessMsg (isEnglish : Bool) : String :=
  if isEnglish then "Borrow record added successfully!"
  else "കടം രേഖ വിജയകരമായി ചേർത്തു!"

/-- Failure text of the add-borrow-result effect listener (line 551), carrying
the reason supplied in the notification. -/
def addBorrowResultErrorMsg (isEnglish : Bool) (error : Option String) : String :=
  if isEnglish then
    let err := jsOr error "Failed to add record."
    s!"Error: {err}"
  else
    let err := jsOr error "റെക്കോർഡ് ചേർതാൻ"
    s!"തിരിച്ച്: {err} "

/-- Fallback digit-run extraction of a positive amount (lines 200-204 and
341-344): the first digit run of the transcript, accepted when its parseInt
value is positive. -/
def digitRunAmount (t : String) : Option String :=
  match firstDigitRun t.toList with
  | some ds => if 0 < digitsToNat ds then some (String.mk ds) else none
  | none => none

/-- Amount extraction at an askAmount step (lines 190-217 and 331-358): the
word-number parser first, its value accepted when positive, then the digit-run
fallback; none means re-prompt. -/
def extractAmount (p : NumParser) (t : String) : Option String :=
  match p t with
  | some v => if 0 < v then some (toString v) else digitRunAmount t
  | none => digitRunAmount t

/-- Paid-amount extraction at an askPaid step (lines 226-244 and 367-385): the
word-number parser first, accepted when non-negative, then the first digit
run, and the string 0 when both fail. -/
def extractPaid (p : NumParser) (t : String) : String :=
  let fallback : String :=
    match firstDigitRun t.toList with
    | some ds => if 0 ≤ digitsToNat ds then String.mk ds else "0"
    | none => "0"
  match p t with
  | some v => if 0 ≤ v then toString v else fallback
  | none => fallback

/-- Borrow-flow summary prompt entering the confirm step (lines 249-252). -/
def borrowConfirmSummary (isEnglish : Bool) (name amount paid : String) : String :=
  if isEnglish then
    s!"You borrowed ₹{amount} from {name} and have paid back ₹{paid}. Should I save this?"
  else
    s!"നിങ്ങൾ {name} എന്നയാളിൽ നിന്ന് ₹{amount} കടം എടുത്തു, ഇതുവരെ ₹{paid} തിരികെ നൽകി. ഇത് സേവ് ചെയ്യട്ടേ?"

/-- Purchase-flow summary prompt entering the confirm step (lines 390-393). -/
def purchaseConfirmSummary (isEnglish : Bool) (supplier amount paid : String) : String :=
  if isEnglish then
    s!"You purchased for ₹{amount} from {supplier} and have paid ₹{paid}. Should I save this?"
  else
    s!"നിങ്ങൾ {supplier}യിൽ നിന്ന് ₹{amount}ക്ക് വാങ്ങി, ഇതുവരെ ₹{paid} നൽകി. ഇത് സേവ് ചെയ്യട്ടേ?"

/-- handleBorrowReply (VoiceAssistant.tsx lines 182-297): one spoken reply fed to
the borrow flow, returning the updated component state and the list of
commit-request events dispatched. -/
def handleBorrowReply (isEnglish : Bool) (p : NumParser) (st : VAState)
    (transcript : String) : VAState × List Event :=
  let bs := st.borrowState
  if bs.step = BorrowStep.askName then
    ({ st with
        borrowState := { bs with name := transcript, step := BorrowStep.askAmount },
        response :=
          if isEnglish then s!"How much did you borrow from {transcript}?"
          else s!"{transcript} എത്ര രൂപ കടം കൊടുത്തു?" }, [])
  else if bs.step = BorrowStep.askAmount then
    match extractAmount p transcript with
    | some amount =>
      ({ st with
          borrowState := { bs with amount := amount, step := BorrowStep.askPaid },
          response :=
            if isEnglish then "How much have you paid back so far?"
            else "ഇതുവരെ എത്ര രൂപ തിരികെ നൽകി?" }, [])
    | none =>
      ({ st with response := amountNotUnderstoodResponse isEnglish transcript }, [])
  else if bs.step = BorrowStep.askPaid then
    let paid : String := extractPaid p transcript
    let newState : BorrowConversationState :=
      { bs with paid := paid, step := BorrowStep.confirm }
    ({ st with
        borrowState := newState,
        borrowConfirmEdit := some newState,
        response := borrowConfirmSummary isEnglish bs.name bs.amount paid }, [])
  else if bs.step = BorrowStep.confirm then
    if testAny affirmativeWords transcript then
      let data := st.borrowConfirmEdit.getD bs
      if data.name = "" ∨ data.amount = "" ∨ data.amount = "0" then
        ({ st with response := missingInfoBorrowMsg isEnglish }, [])
      else
        ({ st with
            borrowState := { bs with step := BorrowStep.done },
            borrowConfirmEdit := none,
            response := recordAddedMsg isEnglish },
          [Event.addBorrow data.name data.amount (if data.paid = "" then "0" else data.paid)])
    else if testAny negativeWords transcript then
      ({ st with
          borrowState := { bs with step := BorrowStep.askAmount },
          borrowConfirmEdit := none,
          response := borrowChangeMsg isEnglish }, [])
    else
      ({ st with response := yesNoMsg isEnglish }, [])
  else
    (st, [])

/-- handleQuickCommands for the borrow flow (lines 300-315); the Bool is the
handled flag returned by the source function.  The reset branch first resets
the conversation and then moves the step to askName; the cancel branch resets
to idle.  Neither branch touches borrowConfirmEdit. -/
def handleQuickCommands (isEnglish : Bool) (st : VAState) (transcript : String) :
    Bool × VAState :=
  if testAny clearWords transcript then
    (true, { st with
        borrowState := { step := BorrowStep.askName, name := "", amount := "", paid := "" },
        response := borrowFormClearedMsg isEnglish })
  else if testAny cancelWords transcript then
    (true, { st with
        borrowState := { step := BorrowStep.idle, name := "", amount := "", paid := "" },
        response := cancelledMsg isEnglish })
  else
    (false, st)

/-- handlePurchaseReply (VoiceAssistant.tsx lines 323-437). -/
def handlePurchaseReply (isEnglish : Bool) (p : NumParser) (st : VAState)
    (transcript : String) : VAState × List Event :=
  let ps := st.purchaseState
  if ps.step = PurchaseStep.askSupplier then
    ({ st with
        purchaseState := { ps with supplier := transcript, step := PurchaseStep.askAmount },
        response :=
          if isEnglish then s!"How much did you purchase from {transcript}?"
          else s!"{transcript}യിൽ നിന്ന് എത്ര രൂപയ്ക്ക് വാങ്ങി?" }, [])
  else if ps.step = PurchaseStep.askAmount then
    match extractAmount p transcript with
    | some amount =>
      ({ st with
          purchaseState := { ps with amount := amount, step := PurchaseStep.askPaid },
          response :=
            if isEnglish then "How much have you paid so far?"
            else "ഇതുവരെ എത്ര രൂപ നൽകി?" }, [])
    | none =>
      ({ st with response := amountNotUnderstoodResponse isEnglish transcript }, [])
  else if ps.step = PurchaseStep.askPaid then
    let paid : String := extractPaid p transcript
    let newState : PurchaseConversationState :=
      { ps with paid := paid, step := PurchaseStep.confirm }
    ({ st with
        purchaseState := newState,
        purchaseConfirmEdit := some newState,
        response := purchaseConfirmSummary isEnglish ps.supplier ps.amount paid }, [])
  else if ps.step = PurchaseStep.confirm then
    if testAny affirmativeWords transcript then
      let data := st.purchaseConfirmEdit.getD ps
      if data.supplier = "" ∨ data.amount = "" ∨ data.amount = "0" then
        ({ st with response := missingInfoPurchaseMsg isEnglish }, [])
      else
        ({ st with
            purchaseState := { ps with step := PurchaseStep.done },
            purchaseConfirmEdit := none,
            response := purchaseAddedMsg isEnglish },
          [Event.addPurchase data.supplier data.amount
            (if data.paid = "" then "0" else data.paid)])
    else if testAny negativeWords transcript then
      ({ st with
          purchaseState := { ps with step := PurchaseStep.askAmount },
          purchaseConfirmEdit := none,
          response := purchaseChangeMsg isEnglish }, [])
    else
      ({ st with response := yesNoMsg isEnglish }, [])
  else
    (st, [])

/-- handlePurchaseQuickCommands (lines 438-453). -/
def handlePurchaseQuickCommands (isEnglish : Bool) (st : VAState)
    (transcript : String) : Bool × VAState :=
  if testAny clearWords transcript then
    (true, { st with
        purchaseState :=
          { step := PurchaseStep.askSupplier, supplier := "", amount := "", paid := "" },
        response := purchaseFormClearedMsg isEnglish })
  else if testAny cancelWords transcript then
    (true, { st with
        purchaseState :=
          { step := PurchaseStep.idle, supplier := "", amount := "", paid := "" },
        response := cancelledMsg isEnglish })
  else
    (false, st)

/-- handleTranscript (lines 456-483): the main router.  An active purchase flow
takes priority, then an active borrow flow, then the flow-start keyword checks;
the final fallback hands the utterance to the external single-shot command
interpreter, which never touches the conversation states and dispatches no
commit request, so it is the identity here. -/
def handleTranscript (isEnglish : Bool) (p : NumParser) (st : VAState)
    (transcript : String) : VAState × List Event :=
  if st.purchaseState.step ≠ PurchaseStep.idle then
    let r := handlePurchaseQuickCommands isEnglish st transcript
    if r.1 then (r.2, []) else handlePurchaseReply isEnglish p st transcript
  else if st.borrowState.step ≠ BorrowStep.idle then
    let r := handleQuickCommands isEnglish st transcript
    if r.1 then (r.2, []) else handleBorrowReply isEnglish p st transcript
  else if testAny purchaseStartWords transcript then
    ({ st with
        purchaseState :=
          { step := PurchaseStep.askSupplier, supplier := "", amount := "", paid := "" },
        response :=
          if isEnglish then "Let’s add a purchase record. Who is the supplier?"
          else "വാങ്ങൽ രേഖ ചേർക്കാം. സപ്ലയർ ആരാണ്?" }, [])
  else if testAny borrowStartWords transcript then
    ({ st with
        borrowState := { step := BorrowStep.askName, name := "", amount := "", paid := "" },
        response :=
          if isEnglish then "Let’s add a borrow record. Who did you borrow from?"
          else "ആർക്കാണ് കടം കൊടുത്തത്?" }, [])
  else
    (st, [])

/-- The add-borrow-result effect listener (lines 541-557): an arriving commit
result notification is dropped when the borrow step is already done; a success
moves the flow to done and clears the edit buffer; a failure only surfaces the
reason text. -/
def handleAddBorrowResult (isEnglish : Bool) (st : VAState) (d : ResultDetail) :
    VAState :=
  if st.borrowState.step = BorrowStep.done then st
  else if d.success then
    { st with
        response := recordAddedMsg isEnglish,
        borrowState := { st.borrowState with step := BorrowStep.done },
        borrowConfirmEdit := none }
  else
    { st with response := addBorrowResultErrorMsg isEnglish d.error }

/-- Disabled guard of the borrow Save button (lines 659-666). -/
def borrowSaveDisabled (st : VAState) : Bool :=
  (st.borrowState.step != BorrowStep.confirm) ||
  (match st.borrowConfirmEdit with
   | none => true
   | some e => e.name == "" || e.amount == "" || e.amount == "0") ||
  st.isProcessing || st.isSaving

/-- Nonempty run of ASCII hexadecimal digits. -/
def isHexRun (cs : List Char) : Bool :=
  !cs.isEmpty && cs.all (fun c =>
    c.isDigit || ('a' ≤ c && c ≤ 'f') || ('A' ≤ c && c ≤ 'F'))

/-- Nonempty run of binary digits. -/
def isBinRun (cs : List Char) : Bool :=
  !cs.isEmpty && cs.all (fun c => c = '0' || c = '1')

/-- Nonempty run of octal digits. -/
def isOctRun (cs : List Char) : Bool :=
  !cs.isEmpty && cs.all (fun c => '0' ≤ c && c ≤ '7')

/-- Decimal mantissa accepted by JS Number: digits, digits dot digits?, or
dot digits. -/
def decimalMantissaOk (cs : List Char) : Bool :=
  let intPart := cs.takeWhile Char.isDigit
  let rest := cs.drop intPart.length
  match rest with
  | [] => !intPart.isEmpty
  | '.' :: frac => frac.all Char.isDigit && (!intPart.isEmpty || !frac.isEmpty)
  | _ => false

/-- Optionally signed nonempty digit run (a JS exponent part after the e). -/
def signedDigits (cs : List Char) : Bool :=
  match cs with
  | '+' :: rest => !rest.isEmpty && rest.all Char.isDigit
  | '-' :: rest => !rest.isEmpty && rest.all Char.isDigit
  | _ => !cs.isEmpty && cs.all Char.isDigit

/-- Split a character list at the first exponent marker e or E, if any. -/
def splitAtExp (cs : List Char) : List Char × Option (List Char) :=
  match cs.findIdx? (fun c => c = 'e' || c = 'E') with
  | some i => (cs.take i, some (cs.drop (i + 1)))
  | none => (cs, none)

/-- Unsigned decimal numeric literal accepted by JS Number, with an optional
exponent part. -/
def decimalLiteralOk (cs : List Char) : Bool :=
  match splitAtExp cs with
  | (m, none) => decimalMantissaOk m
  | (m, some e) => decimalMantissaOk m && signedDigits e

/-- Whether JS Number(s) evaluates to NaN: models the isNaN(Number(amount))
term of the purchase Save guard (line 778).  Number trims whitespace; an empty
remainder is 0; otherwise the text must be a signed decimal literal, Infinity,
or an unsigned hex, octal or binary literal. -/
def jsNumberIsNaN (s : String) : Bool :=
  let cs := (jsTrim s).toList
  if cs.isEmpty then false
  else
    let unsignedOk : List Char → Bool := fun body =>
      body = ['I', 'n', 'f', 'i', 'n', 'i', 't', 'y'] || decimalLiteralOk body
    let ok :=
      match cs with
      | '+' :: rest => unsignedOk rest
      | '-' :: rest => unsignedOk rest
      | '0' :: 'x' :: rest => isHexRun rest
      | '0' :: 'X' :: rest => isHexRun rest
      | '0' :: 'b' :: rest => isBinRun rest
      | '0' :: 'B' :: rest => isBinRun rest
      | '0' :: 'o' :: rest => isOctRun rest
      | '0' :: 'O' :: rest => isOctRun rest
      | _ => unsignedOk cs
    !ok

/-- Disabled guard of the purchase Save button (lines 775-781): unlike the
borrow guard it never compares the amount against the string 0; it only
requires a nonempty, recognized supplier and a numerically parseable amount. -/
def purchaseSaveDisabled (st : VAState) : Bool :=
  (st.purchaseState.step != PurchaseStep.confirm) ||
  (match st.purchaseConfirmEdit with
   | none => true
   | some e =>
      (e.supplier == "" || testAny supplierInvalidWords e.supplier) ||
      (e.amount == "" || jsNumberIsNaN e.amount)) ||
  st.isProcessing || st.isSaving

/-- Borrow Save button onClick (lines 667-736) combined with the resolution of
its awaited waitForSave promise by the one correlated add-borrow-result
notification: one add-borrow request is dispatched from the edit buffer; on
success the flow moves to done and the buffer is cleared (the always-on result
listener fires first and performs the same updates); on failure the catch
block only replaces the response with a fixed failure text.  Dispatch is
modelled as succeeding, since no listener in the repository cancels the
event. -/
def borrowSaveClick (isEnglish : Bool) (st : VAState) (result : ResultDetail) :
    VAState × List Event :=
  match st.borrowConfirmEdit with
  | none => (st, [])
  | some e =>
    let ev := Event.addBorrow (jsTrim e.name) e.amount (if e.paid == "" then "0" else e.paid)
    if result.success then
      ({ st with
          borrowState := { st.borrowState with step := BorrowStep.done },
          borrowConfirmEdit := none,
          response := borrowSaveSuccessMsg isEnglish,
          isSaving := false }, [ev])
    else
      ({ st with
          response := borrowSaveFailedMsg isEnglish,
          isSaving := false }, [ev])

/-- Purchase Save button onClick (lines 782-851) combined with the resolution
of its awaited result, mirroring borrowSaveClick. -/
def purchaseSaveClick (isEnglish : Bool) (st : VAState) (result : ResultDetail) :
    VAState × List Event :=
  match st.purchaseConfirmEdit with
  | none => (st, [])
  | some e =>
    let ev := Event.addPurchase (jsTrim e.supplier) e.amount
      (if e.paid == "" then "0" else e.paid)
    if result.success then
      ({ st with
          purchaseState := { st.purchaseState with step := PurchaseStep.done },
          purchaseConfirmEdit := none,
          response := purchaseAddedMsg isEnglish,
          isSaving := false }, [ev])
    else
      ({ st with
          response := purchaseSaveFailedMsg isEnglish,
          isSaving := false }, [ev])

/-- Splitter collecting maximal nonempty runs of non-space characters. -/
def splitSpacesAux : List Char → List Char → List String
  | [], acc => if acc.isEmpty then [] else [String.mk acc.reverse]
  | c :: rest, acc =>
    if c = ' ' then
      if acc.isEmpty then splitSpacesAux rest []
      else String.mk acc.reverse :: splitSpacesAux rest []
    else splitSpacesAux rest (c :: acc)

/-- Tokenization of an utterance: ASCII lowercasing then splitting on spaces. -/
def tokenizeUtterance (s : String) : List String :=
  splitSpacesAux (lowerString s).toList []

/-- Per-language lexicon of digit words zero through nine (English and the
Malayalam equivalents). -/
def digitLexicon : List (String × Nat) :=
  [("zero", 0), ("one", 1), ("two", 2), ("three", 3), ("four", 4),
   ("five", 5), ("six", 6), ("seven", 7), ("eight", 8), ("nine", 9),
   ("പൂജ്യം", 0), ("ഒന്ന്", 1), ("രണ്ട്", 2), ("മൂന്ന്", 3), ("നാല്", 4),
   ("അഞ്ച്", 5), ("ആറ്", 6), ("ഏഴ്", 7), ("എട്ട്", 8), ("ഒമ്പത്", 9)]

/-- Scale-word lexicon: hundred and thousand with Malayalam equivalents. -/
def scaleLexicon : List (String × Nat) :=
  [("hundred", 100), ("thousand", 1000), ("നൂറ്", 100), ("ആയിരം", 1000)]

/-- One step of the short-scale accumulation over (total, current, matched):
a digit word adds into the current sub-total, hundred multiplies the current
sub-total (an empty sub-total counting as one), thousand folds the multiplied
sub-total into the running total, and any non-lexicon token is skipped. -/
def composeStep (acc : Nat × Nat × Bool) (tok : String) : Nat × Nat × Bool :=
  let total := acc.1
  let cur := acc.2.1
  let matched := acc.2.2
  match List.lookup tok digitLexicon with
  | some d => (total, cur + d, true)
  | none =>
    match List.lookup tok scaleLexicon with
    | some m =>
      let base := if cur = 0 then 1 else cur
      if m = 1000 then (total + base * 1000, 0, true)
      else (total, base * m, true)
    | none => (total, cur, matched)

/-- Modelled from the spec: universalNumberParser, exported by
src/services/voiceCommandService and imported at VoiceAssistant.tsx line 11,
whose implementation file is not among the provided sources.  Following spec
section 4.1, the utterance is tokenized and mapped against per-language
lexicons of digit words and scale words, skipping non-lexicon filler tokens
and accumulating by standard short-scale composition; if no number word at all
matched, the first maximal digit run in the utterance is taken literally, and
if that also fails the result is none. -/
def universalNumberParser (s : String) : Option Int :=
  let toks := tokenizeUtterance s
  let res := toks.foldl composeStep (0, 0, false)
  if res.2.2 then some (Int.ofNat (res.1 + res.2.1))
  else
    match firstDigitRun s.toList with
    | some ds => some (Int.ofNat (digitsToNat ds))
    | none => none

/-- English digit words indexed by value, for stating the composition
property of the word-number parser. -/
def engDigitWord (d : Fin 10) : String :=
  ["zero", "one", "two", "three", "four",
   "five", "six", "seven", "eight", "nine"].getD d.val ""

/-- Malayalam digit words indexed by value. -/
def mlDigitWord (d : Fin 10) : String :=
  ["പൂജ്യം", "ഒന്ന്", "രണ്ട്", "മൂന്ന്", "നാല്",
   "അഞ്ച്", "ആറ്", "ഏഴ്", "എട്ട്", "ഒമ്പത്"].getD d.val ""

/-- Failure condition of claim C4: the reply yields no positive value from
the word-number parser and contains no digit run with positive parseInt
value. -/
def amountParseFails (p : NumParser) (t : String) : Bool :=
  (match p t with
   | some v => decide (v ≤ 0)
   | none => true) &&
  (match firstDigitRun t.toList with
   | some ds => decide (digitsToNat ds = 0)
   | none => true)

/-- An idle purchase flow state. -/
def purchaseIdle : PurchaseConversationState :=
  { step := PurchaseStep.idle, supplier := "", amount := "", paid := "" }

/-- An idle borrow flow state. -/
def borrowIdle : BorrowConversationState :=
  { step := BorrowStep.idle, name := "", amount := "", paid := "" }

/-- A borrow flow at the confirm step with a complete, valid slot set. -/
def borrowConfirmRavi : BorrowConversationState :=
  { step := BorrowStep.confirm, name := "Ravi", amount := "500", paid := "200" }

/-- Component state for claim C1: borrow flow confirming a valid record. -/
def exStC1 : VAState :=
  { borrowState := borrowConfirmRavi,
    purchaseState := purchaseIdle,
    borrowConfirmEdit := some borrowConfirmRavi,
    purchaseConfirmEdit := none,
    response := "", isProcessing := false, isSaving := false }

/-- Component state for claim C2: both flows confirming, the borrow edit
buffer missing its name, the purchase edit buffer holding a recognized
supplier with a zero amount. -/
def exStC2 : VAState :=
  { borrowState := { step := BorrowStep.confirm, name := "", amount := "", paid := "" },
    purchaseState := { step := PurchaseStep.confirm, supplier := "abc", amount := "0", paid := "0" },
    borrowConfirmEdit := some { step := BorrowStep.confirm, name := "", amount := "", paid := "" },
    purchaseConfirmEdit := some { step := PurchaseStep.confirm, supplier := "abc", amount := "0", paid := "0" },
    response := "", isProcessing := false, isSaving := false }

/-- Component state for claim C3: both flows confirming valid records. -/
def exStC3 : VAState :=
  { borrowState := borrowConfirmRavi,
    purchaseState := { step := PurchaseStep.confirm, supplier := "ABC", amount := "700", paid := "0" },
    borrowConfirmEdit := some borrowConfirmRavi,
    purchaseConfirmEdit :=
      some { step := PurchaseStep.confirm, supplier := "ABC", amount := "700", paid := "0" },
    response := "", isProcessing := false, isSaving := false }

/-- Component state for claim C4: both flows at their amount slot. -/
def exStC4 : VAState :=
  { borrowState := { step := BorrowStep.askAmount, name := "Ravi", amount := "", paid := "" },
    purchaseState := { step := PurchaseStep.askAmount, supplier := "ABC", amount := "", paid := "" },
    borrowConfirmEdit := none, purchaseConfirmEdit := none,
    response := "", isProcessing := false, isSaving := false }

/-- Component state for claim C5: both flows at their paid slot. -/
def exStC5 : VAState :=
  { borrowState := { step := BorrowStep.askPaid, name := "Ravi", amount := "500", paid := "" },
    purchaseState := { step := PurchaseStep.askPaid, supplier := "ABC", amount := "700", paid := "" },
    borrowConfirmEdit := none, purchaseConfirmEdit := none,
    response := "", isProcessing := false, isSaving := false }

/-- Component state for claim C6: both flows confirming valid records. -/
def exStC6 : VAState :=
  { borrowState := borrowConfirmRavi,
    purchaseState := { step := PurchaseStep.confirm, supplier := "ABC", amount := "700", paid := "0" },
    borrowConfirmEdit := some borrowConfirmRavi,
    purchaseConfirmEdit := some { step := PurchaseStep.confirm, supplier := "ABC", amount := "700", paid := "0" },
    response := "", isProcessing := false, isSaving := false }

/-- Component state for claim C8: borrow flow already done, purchase idle. -/
def exStC8 : VAState :=
  { borrowState := { step := BorrowStep.done, name := "Ravi", amount := "500", paid := "200" },
    purchaseState := purchaseIdle,
    borrowConfirmEdit := none, purchaseConfirmEdit := none,
    response := "", isProcessing := false, isSaving := false }

/-- Component state for claim C9: borrow flow reset to idle by a cancel. -/
def exStC9 : VAState :=
  { borrowState := borrowIdle,
    purchaseState := purchaseIdle,
    borrowConfirmEdit := none, purchaseConfirmEdit := none,
    response := "", isProcessing := false, isSaving := false }

/-- Second component state for claim C9: borrow flow already done. -/
def exStC9done : VAState :=
  { borrowState := { step := BorrowStep.done, name := "Ravi", amount := "500", paid := "200" },
    purchaseState := purchaseIdle,
    borrowConfirmEdit := none, purchaseConfirmEdit := none,
    response := "", isProcessing := false, isSaving := false }

/-- Component state for claim C10: borrow flow confirming a valid record. -/
def exStC10 : VAState :=
  { borrowState := borrowConfirmRavi,
    purchaseState := purchaseIdle,
    borrowConfirmEdit := some borrowConfirmRavi,
    purchaseConfirmEdit := none,
    response := "", isProcessing := false, isSaving := false }

/-- When the claim C4 failure condition holds, the amount extraction of the
askAmount branches yields nothing. -/
theorem extractAmount_eq_none (p : NumParser) (t : String)
    (h : amountParseFails p t = true) : extractAmount p t = none := by
  simp only [amountParseFails, Bool.and_eq_true] at h
  obtain ⟨h1, h2⟩ := h
  have hdr : digitRunAmount t = none := by
    unfold digitRunAmount
    rcases hd : firstDigitRun t.toList with _ | ds
    · rfl
    · rw [hd] at h2
      simp only [decide_eq_true_eq] at h2
      dsimp only
      rw [if_neg (by omega)]
  unfold extractAmount
  rcases hp : p t with _ | v
  · exact hdr
  · rw [hp] at h1
    simp only [decide_eq_true_eq] at h1
    dsimp only
    rw [if_neg (by omega)]
    exact hdr

/-- When the paid reply yields neither a parser value nor a digit run, the
paid extraction defaults to the string 0. -/
theorem extractPaid_eq_zero (p : NumParser) (t : String)
    (hp : p t = none) (hd : firstDigitRun t.toList = none) :
    extractPaid p t = "0" := by
  unfold extractPaid
  rw [hp, hd]

/-- C4: for every reply at the amount-asking step whose text yields no
positive value from the word-number parser and contains no digit run parsing
to a positive integer, the engine re-emits the amount prompt with a
clarifying error message, stays at the same step, and stores no amount value
(the state is unchanged except for the response text, and nothing is
dispatched), in both the borrow and the purchase flow. -/
theorem C4_parse_failure_reprompts (isE : Bool) (p : NumParser) (st : VAState)
    (t : String) (hfail : amountParseFails p t = true) :
    (st.borrowState.step = BorrowStep.askAmount →
      handleBorrowReply isE p st t =
        ({ st with response := amountNotUnderstoodResponse isE t }, [])) ∧
    (st.purchaseState.step = PurchaseStep.askAmount →
      handlePurchaseReply isE p st t =
        ({ st with response := amountNotUnderstoodResponse isE t }, [])) := by
  have hx := extractAmount_eq_none p t hfail
  constructor
  · intro hb
    simp [handleBorrowReply, hb, hx]
  · intro hq
    simp [handlePurchaseReply, hq, hx]

/-- C4 witness: a concrete unparseable amount reply in both flows. -/
theorem C4_witness :
    handleBorrowReply true universalNumberParser exStC4 "some gibberish" =
      ({ exStC4 with response := amountNotUnderstoodResponse true "some gibberish" }, []) ∧
    handlePurchaseReply true universalNumberParser exStC4 "some gibberish" =
      ({ exStC4 with response := amountNotUnderstoodResponse true "some gibberish" }, []) := by
  have h := C4_parse_failure_reprompts true universalNumberParser exStC4
    "some gibberish" (by decide)
  exact ⟨h.1 rfl, h.2 rfl⟩

/-- C5: a reply at the paid-amount step that yields neither a parsed number
word value nor a digit run stores 0 as the paid amount (the implicit default)
and advances to Confirming, seeding the edit buffer, rather than re-prompting
as the primary amount slot does; in both flows. -/
theorem C5_paid_defaults_to_zero (isE : Bool) (p : NumParser) (st : VAState)
    (t : String) (hp : p t = none) (hd : firstDigitRun t.toList = none) :
    (st.borrowState.step = BorrowStep.askPaid →
      handleBorrowReply isE p st t =
        ({ st with
            borrowState := { st.borrowState with paid := "0", step := BorrowStep.confirm },
            borrowConfirmEdit :=
              some { st.borrowState with paid := "0", step := BorrowStep.confirm },
            response :=
              borrowConfirmSummary isE st.borrowState.name st.borrowState.amount "0" }, [])) ∧
    (st.purchaseState.step = PurchaseStep.askPaid →
      handlePurchaseReply isE p st t =
        ({ st with
            purchaseState := { st.purchaseState with paid := "0", step := PurchaseStep.confirm },
            purchaseConfirmEdit :=
              some { st.purchaseState with paid := "0", step := PurchaseStep.confirm },
            response :=
              purchaseConfirmSummary isE st.purchaseState.supplier st.purchaseState.amount "0" },
          [])) := by
  have hx := extractPaid_eq_zero p t hp hd
  constructor
  · intro hb
    simp [handleBorrowReply, hb, hx]
  · intro hq
    simp [handlePurchaseReply, hq, hx]

/-- C5 witness: a concrete unparseable paid reply in both flows. -/
theorem C5_witness :
    (handleBorrowReply true universalNumberParser exStC5 "nothing yet").1.borrowState.paid =
      "0" ∧
    (handleBorrowReply true universalNumberParser exStC5 "nothing yet").1.borrowState.step =
      BorrowStep.confirm ∧
    (handlePurchaseReply true universalNumberParser exStC5 "nothing yet").1.purchaseState.paid =
      "0" ∧
    (handlePurchaseReply true universalNumberParser exStC5 "nothing yet").1.purchaseState.step =
      PurchaseStep.confirm := by
  have h := C5_paid_defaults_to_zero true universalNumberParser exStC5 "nothing yet"
    (by decide) (by decide)
  have hb := h.1 rfl
  have hq := h.2 rfl
  rw [hb, hq]
  exact ⟨rfl, rfl, rfl, rfl⟩

/-- C7: every utterance consisting solely of lexicon number words (digit
words and the scale words hundred and thousand, in English or their Malayalam
equivalents) composing a value of up to at least four digits parses to
exactly that integer.  The lexicon composes values as an optional thousands
part (digit word then thousand, or the bare scale word), an optional
hundreds part (digit word then hundred, or bare), and an optional trailing
units digit word; every combination of these parts, in both languages, is
covered, with nonzero leading digits where a scale follows (the genuinely
three- and four-digit compositions), e.g. two thousand five hundred gives
2500 by short-scale composition as 2 times 1000 plus 5 times 100. -/
theorem C7_word_number_composition :
    (∀ d : Fin 10, universalNumberParser (engDigitWord d) = some (Int.ofNat d.val)) ∧
    (∀ d2 : Fin 10, 1 ≤ d2.val →
      universalNumberParser (engDigitWord d2 ++ " hundred") =
        some (Int.ofNat (d2.val * 100))) ∧
    (∀ d2 d3 : Fin 10, 1 ≤ d2.val →
      universalNumberParser (engDigitWord d2 ++ " hundred " ++ engDigitWord d3) =
        some (Int.ofNat (d2.val * 100 + d3.val))) ∧
    (∀ d1 : Fin 10, 1 ≤ d1.val →
      universalNumberParser (engDigitWord d1 ++ " thousand") =
        some (Int.ofNat (d1.val * 1000))) ∧
    (∀ d1 d3 : Fin 10, 1 ≤ d1.val →
      universalNumberParser (engDigitWord d1 ++ " thousand " ++ engDigitWord d3) =
        some (Int.ofNat (d1.val * 1000 + d3.val))) ∧
    (∀ d1 d2 : Fin 10, 1 ≤ d1.val → 1 ≤ d2.val →
      universalNumberParser
        (engDigitWord d1 ++ " thousand " ++ engDigitWord d2 ++ " hundred") =
        some (Int.ofNat (d1.val * 1000 + d2.val * 100))) ∧
    (∀ d1 d2 d3 : Fin 10, 1 ≤ d1.val → 1 ≤ d2.val →
      universalNumberParser
        (engDigitWord d1 ++ " thousand " ++ engDigitWord d2 ++ " hundred " ++ engDigitWord d3)
        = some (Int.ofNat (d1.val * 1000 + d2.val * 100 + d3.val))) ∧
    (∀ d : Fin 10, universalNumberParser (mlDigitWord d) = some (Int.ofNat d.val)) ∧
    (∀ d2 : Fin 10, 1 ≤ d2.val →
      universalNumberParser (mlDigitWord d2 ++ " നൂറ്") =
        some (Int.ofNat (d2.val * 100))) ∧
    (∀ d2 d3 : Fin 10, 1 ≤ d2.val →
      universalNumberParser (mlDigitWord d2 ++ " നൂറ് " ++ mlDigitWord d3) =
        some (Int.ofNat (d2.val * 100 + d3.val))) ∧
    (∀ d1 : Fin 10, 1 ≤ d1.val →
      universalNumberParser (mlDigitWord d1 ++ " ആയിരം") =
        some (Int.ofNat (d1.val * 1000))) ∧
    (∀ d1 d3 : Fin 10, 1 ≤ d1.val →
      universalNumberParser (mlDigitWord d1 ++ " ആയിരം " ++ mlDigitWord d3) =
        some (Int.ofNat (d1.val * 1000 + d3.val))) ∧
    (∀ d1 d2 : Fin 10, 1 ≤ d1.val → 1 ≤ d2.val →
      universalNumberParser (mlDigitWord d1 ++ " ആയിരം " ++ mlDigitWord d2 ++ " നൂറ്") =
        some (Int.ofNat (d1.val * 1000 + d2.val * 100))) ∧
    (∀ d1 d2 d3 : Fin 10, 1 ≤ d1.val → 1 ≤ d2.val →
      universalNumberParser
        (mlDigitWord d1 ++ " ആയിരം " ++ mlDigitWord d2 ++ " നൂറ് " ++ mlDigitWord d3)
        = some (Int.ofNat (d1.val * 1000 + d2.val * 100 + d3.val))) ∧
    universalNumberParser "hundred" = some 100 ∧
    universalNumberParser "thousand" = some 1000 ∧
    universalNumberParser "നൂറ്" = some 100 ∧
    universalNumberParser "ആയിരം" = some 1000 ∧
    universalNumberParser "two thousand five hundred" = some 2500 ∧
    universalNumberParser "two thousand eight" = some 2008 ∧
    universalNumberParser "five hundred" = some 500 := by
  refine ⟨?_, ?_, ?_, ?_, ?_, ?_, ?_, ?_, ?_, ?_, ?_,
    ?_, ?_, ?_, ?_, ?_, ?_, ?_, ?_, ?_, ?_⟩ <;> decide

/-- C7 witness: the composition theorem applied at concrete digit words in
five of its shapes, one-digit through four-digit values in both languages. -/
theorem C7_witness :
    universalNumberParser "seven" = some (Int.ofNat 7) ∧
    universalNumberParser "five hundred three" = some (Int.ofNat 503) ∧
    universalNumberParser "two thousand eight" = some (Int.ofNat 2008) ∧
    universalNumberParser "two thousand five hundred seven" = some (Int.ofNat 2507) ∧
    universalNumberParser "രണ്ട് ആയിരം" = some (Int.ofNat 2000) := by
  have h := C7_word_number_composition
  have h1 := h.1 7
  have e1 : engDigitWord 7 = "seven" := by decide
  have v1 : ((7 : Fin 10).val : Int) = Int.ofNat 7 := by decide
  rw [e1] at h1
  have h3 := h.2.2.1 5 3 (by decide)
  have e3 : engDigitWord 5 ++ " hundred " ++ engDigitWord 3 = "five hundred three" := by
    decide
  have v3 : ((5 : Fin 10).val * 100 + (3 : Fin 10).val) = 503 := by decide
  rw [e3, v3] at h3
  have h5 := h.2.2.2.2.1 2 8 (by decide)
  have e5 : engDigitWord 2 ++ " thousand " ++ engDigitWord 8 = "two thousand eight" := by
    decide
  have v5 : ((2 : Fin 10).val * 1000 + (8 : Fin 10).val) = 2008 := by decide
  rw [e5, v5] at h5
  have h7 := h.2.2.2.2.2.2.1 2 5 7 (by decide) (by decide)
  have e7 : engDigitWord 2 ++ " thousand " ++ engDigitWord 5 ++ " hundred " ++ engDigitWord 7 =
      "two thousand five hundred seven" := by decide
  have v7 : ((2 : Fin 10).val * 1000 + (5 : Fin 10).val * 100 + (7 : Fin 10).val) = 2507 := by
    decide
  rw [e7, v7] at h7
  have h11 := h.2.2.2.2.2.2.2.2.2.2.1 2 (by decide)
  have e11 : mlDigitWord 2 ++ " ആയിരം" = "രണ്ട് ആയിരം" := by decide
  have v11 : ((2 : Fin 10).val * 1000) = 2000 := by decide
  rw [e11, v11] at h11
  have hv1 : ((7 : Fin 10).val) = 7 := by decide
  rw [hv1] at h1
  exact ⟨h1, h3, h5, h7, h11⟩

/-- C9 counterexample: the claim says a late success result never changes the
state of an engine reset to Idle, but the result listener only checks for
done, so a late success notification moves an idle borrow engine to done. -/
theorem C9_counterexample :
    exStC9.borrowState.step = BorrowStep.idle ∧
    (handleAddBorrowResult true exStC9 ⟨true, none⟩).borrowState.step = BorrowStep.done := by
  decide

/-- C9 amended: the engine checks only for the Done state before applying a
late commit result: a result arriving with the borrow flow in Done is fully
ignored, but a late success arriving after a reset to Idle transitions the
idle engine to Done instead of being ignored. -/
theorem C9_amended (isE : Bool) (st st2 : VAState) (d d2 : ResultDetail)
    (h1 : st.borrowState.step = BorrowStep.done)
    (h2 : st2.borrowState.step = BorrowStep.idle)
    (h3 : d2.success = true) :
    handleAddBorrowResult isE st d = st ∧
    (handleAddBorrowResult isE st2 d2).borrowState.step = BorrowStep.done := by
  constructor
  · simp [handleAddBorrowResult, h1]
  · simp [handleAddBorrowResult, h2, h3]

/-- C9 amended witness: a done engine ignores a result, an idle engine is
moved to done by a late success. -/
theorem C9_amended_witness :
    handleAddBorrowResult true exStC9done ⟨true, none⟩ = exStC9done ∧
    (handleAddBorrowResult true exStC9 ⟨true, some "late"⟩).borrowState.step =
      BorrowStep.done := by
  exact C9_amended true exStC9done exStC9 ⟨true, none⟩ ⟨true, some "late"⟩ rfl rfl rfl

/-- C1 counterexample: at Confirming with a valid edit buffer, the
affirmative voice reply dispatches one commit request but the engine moves to
Done and clears the edit buffer immediately, with no success notification
having been received, refuting that the Done transition happens only upon the
matching success result. -/
theorem C1_counterexample :
    (handleBorrowReply true universalNumberParser exStC1 "yes").2 =
      [Event.addBorrow "Ravi" "500" "200"] ∧
    (handleBorrowReply true universalNumberParser exStC1 "yes").1.borrowState.step =
      BorrowStep.done ∧
    (handleBorrowReply true universalNumberParser exStC1 "yes").1.borrowConfirmEdit =
      none := by
  decide

/-- C1 amended: at Confirming with a valid edit buffer, an affirmative voice
reply dispatches exactly one commit request and transitions to Done
immediately, clearing the edit buffer without waiting for any result
notification; the Save click path dispatches exactly one request and
transitions to Done precisely when the correlated result is a success, so on
each path Done is reached at most once per flow. -/
theorem C1_amended (isE : Bool) (p : NumParser) (st : VAState) (t : String)
    (e : BorrowConversationState) (d : ResultDetail)
    (hedit : st.borrowConfirmEdit = some e)
    (hstep : st.borrowState.step = BorrowStep.confirm)
    (haff : testAny affirmativeWords t = true)
    (hname : e.name ≠ "") (hamt : e.amount ≠ "") (hamt0 : e.amount ≠ "0")
    (hproc : st.isProcessing = false) (hsav : st.isSaving = false) :
    borrowSaveDisabled st = false ∧
    ((handleBorrowReply isE p st t).2 =
        [Event.addBorrow e.name e.amount (if e.paid = "" then "0" else e.paid)] ∧
      (handleBorrowReply isE p st t).1.borrowState.step = BorrowStep.done ∧
      (handleBorrowReply isE p st t).1.borrowConfirmEdit = none) ∧
    ((borrowSaveClick isE st d).2 =
        [Event.addBorrow (jsTrim e.name) e.amount (if e.paid == "" then "0" else e.paid)] ∧
      ((borrowSaveClick isE st d).1.borrowState.step = BorrowStep.done ↔
        d.success = true)) := by
  refine ⟨?_, ⟨?_, ?_, ?_⟩, ?_, ?_⟩
  · simp [borrowSaveDisabled, hedit, hstep, hproc, hsav, hname, hamt, hamt0]
  · simp [handleBorrowReply, hstep, hedit, haff, hname, hamt, hamt0]
  · simp [handleBorrowReply, hstep, hedit, haff, hname, hamt, hamt0]
  · simp [handleBorrowReply, hstep, hedit, haff, hname, hamt, hamt0]
  · rcases d with ⟨ds, de⟩
    cases ds <;> simp [borrowSaveClick, hedit]
  · rcases d with ⟨ds, de⟩
    cases ds <;> simp [borrowSaveClick, hedit, hstep]

/-- C1 amended witness at a concrete confirming state. -/
theorem C1_amended_witness :
    borrowSaveDisabled exStC1 = false ∧
    (handleBorrowReply true universalNumberParser exStC1 "yes").1.borrowState.step =
      BorrowStep.done ∧
    ((borrowSaveClick true exStC1 ⟨true, none⟩).1.borrowState.step = BorrowStep.done ↔
      true = true) := by
  have h := C1_amended true universalNumberParser exStC1 "yes" borrowConfirmRavi
    ⟨true, none⟩ rfl rfl (by decide) (by decide) (by decide) (by decide) rfl rfl
  exact ⟨h.1, h.2.1.2.1, h.2.2.2⟩

/-- C2 counterexample: the purchase Save control at Confirming with a zero
primary amount (and recognized supplier) is not disabled, and clicking it
dispatches a commit request, refuting the claim that no commit can be
dispatched while the primary amount is zero. -/
theorem C2_counterexample :
    exStC2.purchaseConfirmEdit =
      some { step := PurchaseStep.confirm, supplier := "abc", amount := "0", paid := "0" } ∧
    purchaseSaveDisabled exStC2 = false ∧
    (purchaseSaveClick true exStC2 ⟨true, none⟩).2 =
      [Event.addPurchase "abc" "0" "0"] := by
  decide

/-- C2 amended: the affirmative voice path of both flows is guarded, staying
in Confirming with a missing-information prompt and dispatching nothing when
the name or supplier is empty or the primary amount is missing or the string
zero; the borrow Save button is disabled under the same condition; the
purchase Save button, however, only requires a nonempty recognized supplier
and a numerically parseable amount, so with a zero amount it stays enabled
and clicking it dispatches a commit request. -/
theorem C2_amended (isE : Bool) (p : NumParser) (st : VAState) (t : String)
    (ep : PurchaseConversationState) (r : ResultDetail)
    (haff : testAny affirmativeWords t = true) :
    (st.borrowState.step = BorrowStep.confirm →
      ((st.borrowConfirmEdit.getD st.borrowState).name = "" ∨
       (st.borrowConfirmEdit.getD st.borrowState).amount = "" ∨
       (st.borrowConfirmEdit.getD st.borrowState).amount = "0") →
      handleBorrowReply isE p st t = ({ st with response := missingInfoBorrowMsg isE }, [])) ∧
    (st.purchaseState.step = PurchaseStep.confirm →
      ((st.purchaseConfirmEdit.getD st.purchaseState).supplier = "" ∨
       (st.purchaseConfirmEdit.getD st.purchaseState).amount = "" ∨
       (st.purchaseConfirmEdit.getD st.purchaseState).amount = "0") →
      handlePurchaseReply isE p st t =
        ({ st with response := missingInfoPurchaseMsg isE }, [])) ∧
    (∀ eb : BorrowConversationState, st.borrowConfirmEdit = some eb →
      (eb.name = "" ∨ eb.amount = "" ∨ eb.amount = "0") →
      borrowSaveDisabled st = true) ∧
    (st.purchaseConfirmEdit = some ep →
      st.purchaseState.step = PurchaseStep.confirm →
      ep.supplier ≠ "" → testAny supplierInvalidWords ep.supplier = false →
      ep.amount = "0" →
      st.isProcessing = false → st.isSaving = false →
      purchaseSaveDisabled st = false ∧
      (purchaseSaveClick isE st r).2 =
        [Event.addPurchase (jsTrim ep.supplier) "0"
          (if ep.paid == "" then "0" else ep.paid)]) := by
  refine ⟨?_, ?_, ?_, ?_⟩
  · intro h hinv
    simp [handleBorrowReply, h, haff, hinv]
  · intro h hinv
    simp [handlePurchaseReply, h, haff, hinv]
  · intro eb heb hinv
    rcases hinv with h1 | h1 | h1 <;> simp [borrowSaveDisabled, heb, h1]
  · intro hpe hps hsup hsup2 hamt hproc hsav
    have hnan : jsNumberIsNaN "0" = false := by decide
    constructor
    · simp [purchaseSaveDisabled, hpe, hps, hsup, hsup2, hproc, hsav, hamt, hnan]
    · rcases r with ⟨rs, re⟩
      cases rs <;> simp [purchaseSaveClick, hpe, hamt]

/-- C2 amended witness at a concrete state exercising all four parts. -/
theorem C2_amended_witness :
    handleBorrowReply true universalNumberParser exStC2 "yes" =
      ({ exStC2 with response := missingInfoBorrowMsg true }, []) ∧
    handlePurchaseReply true universalNumberParser exStC2 "yes" =
      ({ exStC2 with response := missingInfoPurchaseMsg true }, []) ∧
    borrowSaveDisabled exStC2 = true ∧
    purchaseSaveDisabled exStC2 = false := by
  have h := C2_amended true universalNumberParser exStC2 "yes"
    ⟨PurchaseStep.confirm, "abc", "0", "0"⟩ ⟨true, none⟩ (by decide)
  refine ⟨h.1 rfl (by decide), h.2.1 rfl (by decide), ?_,
    (h.2.2.2 rfl rfl (by decide) (by decide) rfl rfl rfl).1⟩
  exact h.2.2.1 ⟨BorrowStep.confirm, "", "", ""⟩ rfl (by decide)

/-- C3 counterexample: a commit dispatched by the affirmative voice reply has
already moved the engine to Done and cleared the edit buffer, so when that
commit resolves as a failure the engine is in Done with no edit buffer, not
in Confirming with the buffer intact, refuting the claim that on every failed
commit the engine remains in Confirming and never advances to Done. -/
theorem C3_counterexample :
    (handleBorrowReply true universalNumberParser exStC3 "yes").2 =
      [Event.addBorrow "Ravi" "500" "200"] ∧
    (handleAddBorrowResult true
        (handleBorrowReply true universalNumberParser exStC3 "yes").1
        ⟨false, some "db write failed"⟩).borrowState.step = BorrowStep.done ∧
    (handleAddBorrowResult true
        (handleBorrowReply true universalNumberParser exStC3 "yes").1
        ⟨false, some "db write failed"⟩).borrowConfirmEdit = none := by
  decide

/-- C3 amended: for a commit dispatched from either Save button that resolves
as a failure, the engine remains in Confirming with the edit buffer unchanged
(so Save can be retried without re-entering fields) and a fixed failure
message is surfaced; the background result listener, when the borrow flow is
not yet Done, keeps the state and surfaces the specific failure reason as
prompt text; a voice-path commit, however, has already advanced to Done at
dispatch time. -/
theorem C3_amended (isE : Bool) (st : VAState) (r : ResultDetail)
    (eb : BorrowConversationState) (ep : PurchaseConversationState)
    (hf : r.success = false) :
    (st.borrowConfirmEdit = some eb → st.borrowState.step = BorrowStep.confirm →
      (borrowSaveClick isE st r).1.borrowState = st.borrowState ∧
      (borrowSaveClick isE st r).1.borrowState.step = BorrowStep.confirm ∧
      (borrowSaveClick isE st r).1.borrowConfirmEdit = some eb ∧
      (borrowSaveClick isE st r).1.response = borrowSaveFailedMsg isE) ∧
    (st.purchaseConfirmEdit = some ep → st.purchaseState.step = PurchaseStep.confirm →
      (purchaseSaveClick isE st r).1.purchaseState = st.purchaseState ∧
      (purchaseSaveClick isE st r).1.purchaseState.step = PurchaseStep.confirm ∧
      (purchaseSaveClick isE st r).1.purchaseConfirmEdit = some ep ∧
      (purchaseSaveClick isE st r).1.response = purchaseSaveFailedMsg isE) ∧
    (st.borrowState.step ≠ BorrowStep.done →
      (handleAddBorrowResult isE st r).borrowState = st.borrowState ∧
      (handleAddBorrowResult isE st r).borrowConfirmEdit = st.borrowConfirmEdit ∧
      (handleAddBorrowResult isE st r).response = addBorrowResultErrorMsg isE r.error) := by
  rcases r with ⟨rs, re⟩
  simp only at hf
  subst hf
  refine ⟨?_, ?_, ?_⟩
  · intro he hs
    simp [borrowSaveClick, he, hs]
  · intro he hs
    simp [purchaseSaveClick, he, hs]
  · intro hnd
    simp [handleAddBorrowResult, hnd]

/-- C3 amended witness at a concrete confirming state and a failing result. -/
theorem C3_amended_witness :
    (borrowSaveClick true exStC3 ⟨false, some "boom"⟩).1.borrowState =
      exStC3.borrowState ∧
    (borrowSaveClick true exStC3 ⟨false, some "boom"⟩).1.response =
      borrowSaveFailedMsg true ∧
    (purchaseSaveClick true exStC3 ⟨false, some "boom"⟩).1.purchaseState =
      exStC3.purchaseState ∧
    (handleAddBorrowResult true exStC3 ⟨false, some "boom"⟩).response =
      addBorrowResultErrorMsg true (some "boom") := by
  have h := C3_amended true exStC3 ⟨false, some "boom"⟩ borrowConfirmRavi
    ⟨PurchaseStep.confirm, "ABC", "700", "0"⟩ rfl
  exact ⟨(h.1 rfl rfl).1, (h.1 rfl rfl).2.2.2, (h.2.1 rfl rfl).1, (h.2.2 (by decide)).2.2⟩

/-- C6 counterexample: the reply no save at Confirming matches the negative
vocabulary, yet because the affirmative vocabulary is checked first the
engine commits and moves to Done instead of returning to the amount step,
refuting the claim for every reply matching the negative vocabulary. -/
theorem C6_counterexample :
    testAny negativeWords "no save" = true ∧
    exStC6.borrowState.step = BorrowStep.confirm ∧
    (handleBorrowReply true universalNumberParser exStC6 "no save").1.borrowState.step =
      BorrowStep.done := by
  decide

/-- C6 amended: every reply at the Confirming step matching the negative
vocabulary and not matching the affirmative vocabulary (which is checked
first) moves the engine back to the amount-asking step, retains the stored
free-text name or supplier slot, and discards the edit buffer; in both
flows. -/
theorem C6_amended (isE : Bool) (p : NumParser) (st : VAState) (t : String)
    (hneg : testAny negativeWords t = true)
    (haff : testAny affirmativeWords t = false) :
    (st.borrowState.step = BorrowStep.confirm →
      handleBorrowReply isE p st t =
        ({ st with
            borrowState := { st.borrowState with step := BorrowStep.askAmount },
            borrowConfirmEdit := none,
            response := borrowChangeMsg isE }, [])) ∧
    (st.purchaseState.step = PurchaseStep.confirm →
      handlePurchaseReply isE p st t =
        ({ st with
            purchaseState := { st.purchaseState with step := PurchaseStep.askAmount },
            purchaseConfirmEdit := none,
            response := purchaseChangeMsg isE }, [])) := by
  constructor
  · intro h
    simp [handleBorrowReply, h, hneg, haff]
  · intro h
    simp [handlePurchaseReply, h, hneg, haff]

/-- C6 amended witness: the plain negative reply no at a concrete confirming
state of both flows. -/
theorem C6_amended_witness :
    handleBorrowReply true universalNumberParser exStC6 "no" =
      ({ exStC6 with
          borrowState := { exStC6.borrowState with step := BorrowStep.askAmount },
          borrowConfirmEdit := none,
          response := borrowChangeMsg true }, []) ∧
    handlePurchaseReply true universalNumberParser exStC6 "no" =
      ({ exStC6 with
          purchaseState := { exStC6.purchaseState with step := PurchaseStep.askAmount },
          purchaseConfirmEdit := none,
          response := purchaseChangeMsg true }, []) := by
  have h := C6_amended true universalNumberParser exStC6 "no" (by decide) (by decide)
  exact ⟨h.1 rfl, h.2 rfl⟩

/-- C8 counterexample: with the borrow flow in Done, the reset quick command
still changes the state, re-arming the flow to askName without any new
start, refuting that no reply of any kind changes a Done engine. -/
theorem C8_counterexample :
    exStC8.borrowState.step = BorrowStep.done ∧
    (handleTranscript true universalNumberParser exStC8 "reset").1.borrowState.step =
      BorrowStep.askName := by
  decide

/-- C8 amended: Done is terminal only for ordinary replies: a transcript
matching neither the reset nor the cancel vocabulary leaves a Done borrow
engine (with the purchase flow idle) completely unchanged and dispatches
nothing; but quick commands remain checked at Done, so a reset transcript
re-arms the flow to the first slot with cleared slots and a cancel transcript
returns it to Idle. -/
theorem C8_amended (isE : Bool) (p : NumParser) (st : VAState) (t u w : String)
    (hP : st.purchaseState.step = PurchaseStep.idle)
    (hB : st.borrowState.step = BorrowStep.done)
    (ht1 : testAny clearWords t = false) (ht2 : testAny cancelWords t = false)
    (hu : testAny clearWords u = true)
    (hw1 : testAny cancelWords w = true) (hw2 : testAny clearWords w = false) :
    handleTranscript isE p st t = (st, []) ∧
    (handleTranscript isE p st u).1.borrowState =
      { step := BorrowStep.askName, name := "", amount := "", paid := "" } ∧
    (handleTranscript isE p st w).1.borrowState =
      { step := BorrowStep.idle, name := "", amount := "", paid := "" } := by
  refine ⟨?_, ?_, ?_⟩
  · simp [handleTranscript, hP, hB, handleQuickCommands, ht1, ht2, handleBorrowReply]
  · simp [handleTranscript, hP, hB, handleQuickCommands, hu]
  · simp [handleTranscript, hP, hB, handleQuickCommands, hw1, hw2]

/-- C8 amended witness: an affirmative reply is ignored at Done, while reset
and cancel still act. -/
theorem C8_amended_witness :
    handleTranscript true universalNumberParser exStC8 "yes" = (exStC8, []) ∧
    (handleTranscript true universalNumberParser exStC8 "reset").1.borrowState =
      { step := BorrowStep.askName, name := "", amount := "", paid := "" } ∧
    (handleTranscript true universalNumberParser exStC8 "cancel").1.borrowState =
      { step := BorrowStep.idle, name := "", amount := "", paid := "" } := by
  exact C8_amended true universalNumberParser exStC8 "yes" "reset" "cancel"
    rfl rfl (by decide) (by decide) (by decide) (by decide) (by decide)

/-- C10 counterexample: the transcript reset cancel matches the cancel
vocabulary, but because the clear vocabulary is checked first it is consumed
as the reset quick command, leaving the flow at askName rather than resetting
it to Idle, refuting the claim for every cancel-matching transcript. -/
theorem C10_counterexample :
    testAny cancelWords "reset cancel" = true ∧
    exStC10.borrowState.step = BorrowStep.confirm ∧
    (handleTranscript true universalNumberParser exStC10 "reset cancel").1.borrowState.step ≠
      BorrowStep.idle := by
  decide

/-- C10 amended: at Confirming (borrow active, purchase idle), every
transcript matching the cancel vocabulary and not the clear vocabulary
(checked first) is consumed as the quick-command cancel, resetting the whole
flow to Idle with all slots cleared and never acting as a negative reply
returning to the amount step; a transcript matching the clear vocabulary is
instead consumed as the reset quick command re-arming the flow at askName
with cleared slots, likewise never reaching the negative-reply handling. -/
theorem C10_amended (isE : Bool) (p : NumParser) (st : VAState) (t u : String)
    (hP : st.purchaseState.step = PurchaseStep.idle)
    (hB : st.borrowState.step = BorrowStep.confirm)
    (ht1 : testAny cancelWords t = true) (ht2 : testAny clearWords t = false)
    (hu : testAny clearWords u = true) :
    handleTranscript isE p st t =
      ({ st with
          borrowState := { step := BorrowStep.idle, name := "", amount := "", paid := "" },
          response := cancelledMsg isE }, []) ∧
    (handleTranscript isE p st t).1.borrowState.step ≠ BorrowStep.askAmount ∧
    (handleTranscript isE p st u).1.borrowState =
      { step := BorrowStep.askName, name := "", amount := "", paid := "" } := by
  refine ⟨?_, ?_, ?_⟩
  · simp [handleTranscript, hP, hB, handleQuickCommands, ht1, ht2]
  · simp [handleTranscript, hP, hB, handleQuickCommands, ht1, ht2]
  · simp [handleTranscript, hP, hB, handleQuickCommands, hu]

/-- C10 amended witness: the Malayalam cancel word at a concrete confirming
state resets to Idle, while a clear transcript re-arms at askName. -/
theorem C10_amended_witness :
    handleTranscript true universalNumberParser exStC10 "വേണ്ട" =
      ({ exStC10 with
          borrowState := { step := BorrowStep.idle, name := "", amount := "", paid := "" },
          response := cancelledMsg true }, []) ∧
    (handleTranscript true universalNumberParser exStC10 "clear").1.borrowState =
      { step := BorrowStep.askName, name := "", amount := "", paid := "" } := by
  have h := C10_amended true universalNumberParser exStC10 "വേണ്ട" "clear"
    rfl rfl (by decide) (by decide) (by decide)
  exact ⟨h.1, h.2.2⟩

end ShopSahai
